import Mathlib

/-!
Shallow embedding of `src/context/UserContext.tsx` from the dashboard
repository: a React context provider that fetches the current user,
the user's roles, and a set of permitted resource paths from Supabase,
plus the `useUser` hook.

The asynchronous fetch routine `fetchUserAndRolesAndPermissions` is
modelled as a pure function from the three remote responses it consumes
to a trace of actions: the `setX` state updates it performs (in program
order), the queries it issues, and the error logging in its catch block.
Applying the trace to a provider state yields the state after the run.
-/

namespace UserContext

/-- A Supabase auth user, reduced to the identity field the component uses
(`authUser.id` in the `eq` filter of the role query). -/
structure AuthUser where
  id : String
deriving DecidableEq, Repr

/-- A row of the `roles` table as selected by the join query
`select(roles(id, role_name))`. -/
structure RoleRow where
  id : Int
  role_name : String
deriving DecidableEq, Repr

/-- One item of the result of the join query on `user_roles`: the
`SupabaseUserRoleJoinResultItem` type of the source, holding an array of
role rows. -/
structure SupabaseUserRoleJoinResultItem where
  roles : List RoleRow
deriving DecidableEq, Repr

/-- A row of `resource_permissions` as selected by `select(resource_path)`. -/
structure PermissionRow where
  resource_path : String
deriving DecidableEq, Repr

/-- The three remote responses a single run of the fetch routine can
consume. A query either throws (`Except.error`) or returns data that may
be null (`Option`), matching the `data`/`error` shape in the source. -/
structure Responses where
  authUser : Except Unit (Option AuthUser)
  userRoles : Except Unit (Option (List SupabaseUserRoleJoinResultItem))
  permissions : Except Unit (Option (List PermissionRow))

/-- JavaScript `Boolean` coercion on a string: the empty string is the
only falsy string value (models `.filter(Boolean)` on role names). -/
def truthyString (s : String) : Bool := s ≠ ""

/-- JavaScript `Boolean` coercion on a number: zero is falsy
(models `.filter(Boolean)` on role ids). -/
def truthyInt (i : Int) : Bool := i ≠ 0

/-- `fetchedRoles` of the source: flatten the role rows of each join item,
take each `role_name`, and drop falsy names (`flatMap` + `filter(Boolean)`);
null data is replaced by the empty array (`userRolesData || []`). -/
def fetchedRolesOf (data : Option (List SupabaseUserRoleJoinResultItem)) :
    List String :=
  (((data.getD []).map (fun ur => ur.roles.map (fun role => role.role_name))).flatten).filter
    truthyString

/-- `roleIds` of the source: flatten the role rows of each join item, take
each `id`, and drop falsy (zero) ids. -/
def roleIdsOf (data : Option (List SupabaseUserRoleJoinResultItem)) :
    List Int :=
  (((data.getD []).map (fun ur => ur.roles.map (fun role => role.id))).flatten).filter
    truthyInt

/-- `fetchedPermissions` before the root-path adjustment: the set built
from the `resource_path` of each returned row
(`new Set(permissionsData?.map(p => p.resource_path) || [])`). -/
def fetchedPermissionsOf (pdata : Option (List PermissionRow)) :
    Finset String :=
  ((pdata.map (fun l => l.map (fun p => p.resource_path))).getD []).toFinset

/-- One observable step of the provider: a React state update, a remote
call, or the `console.error` in the catch block. -/
inductive Action where
  | setLoading (b : Bool)
  | setUser (u : Option AuthUser)
  | setRoles (r : Option (List String))
  | setPermissions (p : Option (Finset String))
  | fetchAuthUser
  | queryUserRoles (userId : String)
  | queryPermissions (roleIds : List Int)
  | logError
deriving DecidableEq

/-- The trace of `fetchUserAndRolesAndPermissions`, given the responses the
remote service produces for this run. Follows the source line by line:
`setLoading(true)`; `getUser`; set the user; if present, query the joined
role rows (throw lands in the catch block: log, null roles, null
permissions); set the roles; if any fetched roles, query permissions by
role ids, build the set, add the root path when the set is non-empty, and
set it; else set the empty set; if no user, null roles and permissions;
`finally` `setLoading(false)`. -/
def fetchTrace (r : Responses) : List Action :=
  [Action.setLoading true, Action.fetchAuthUser] ++
  (match r.authUser with
    | Except.error _ =>
        [Action.logError, Action.setRoles none, Action.setPermissions none]
    | Except.ok authUser =>
        Action.setUser authUser ::
        match authUser with
        | none => [Action.setRoles none, Action.setPermissions none]
        | some u =>
            Action.queryUserRoles u.id ::
            match r.userRoles with
            | Except.error _ =>
                [Action.logError, Action.setRoles none, Action.setPermissions none]
            | Except.ok data =>
                Action.setRoles (some (fetchedRolesOf data)) ::
                if (fetchedRolesOf data).length > 0 then
                  Action.queryPermissions (roleIdsOf data) ::
                  match r.permissions with
                  | Except.error _ =>
                      [Action.logError, Action.setRoles none,
                       Action.setPermissions none]
                  | Except.ok pdata =>
                      [Action.setPermissions (some
                        (if (fetchedPermissionsOf pdata).card > 0 then
                          insert "/" (fetchedPermissionsOf pdata)
                        else fetchedPermissionsOf pdata))]
                else [Action.setPermissions (some (∅ : Finset String))]) ++
  [Action.setLoading false]

/-- The `UserContextType` interface of the source: the value the provider
exposes, which is also exactly the provider's own state. -/
structure UserContextType where
  user : Option AuthUser
  roles : Option (List String)
  permissions : Option (Finset String)
  loading : Bool
deriving DecidableEq

/-- The provider's state right after mount, before any effect runs:
`useState` initial values `null`, `null`, `null`, `true`. -/
def initialState : UserContextType :=
  { user := none, roles := none, permissions := none, loading := true }

/-- Apply one action to the provider state. Queries and logging do not
change React state. -/
def applyAction (s : UserContextType) : Action → UserContextType
  | Action.setLoading b => { s with loading := b }
  | Action.setUser u => { s with user := u }
  | Action.setRoles r => { s with roles := r }
  | Action.setPermissions p => { s with permissions := p }
  | Action.fetchAuthUser => s
  | Action.queryUserRoles _ => s
  | Action.queryPermissions _ => s
  | Action.logError => s

/-- Apply a trace of actions in program order. -/
def applyTrace (s : UserContextType) (t : List Action) : UserContextType :=
  t.foldl applyAction s

/-- The provider state after one run of the fetch routine. -/
def runFetch (s : UserContextType) (r : Responses) : UserContextType :=
  applyTrace s (fetchTrace r)

/-- An occurrence that drives the provider: the mount-time fetch, or an
auth-state-change event delivered with a session (carrying its user, or
none on sign-out). A fetch triggered by an event consumes some responses. -/
inductive Event where
  | fetch (r : Responses)
  | authChange (sessionUser : Option AuthUser) (r : Responses)

/-- The trace of actions an event produces, following the
`onAuthStateChange` callback: with a session user, set the user and
re-run the fetch routine; without one, null the user, roles and
permissions and end loading. -/
def eventTrace : Event → List Action
  | Event.fetch r => fetchTrace r
  | Event.authChange (some u) r => Action.setUser (some u) :: fetchTrace r
  | Event.authChange none _ =>
      [Action.setUser none, Action.setRoles none, Action.setPermissions none,
       Action.setLoading false]

/-- The provider state after an event. -/
def runEvent (s : UserContextType) (e : Event) : UserContextType :=
  applyTrace s (eventTrace e)

/-- The provider state reached from mount by a sequence of events. -/
def runEvents (es : List Event) : UserContextType :=
  es.foldl runEvent initialState

/-- The `useUser` hook: given the context value (undefined outside a
`UserProvider`, modelled as `none`), throw or return it unchanged. -/
def useUser : Option UserContextType → Except String UserContextType
  | none => Except.error "useUser must be used within a UserProvider"
  | some ctx => Except.ok ctx

/-- The root-path property of a provider state: a non-empty permission
set contains the root path. -/
def permOk (s : UserContextType) : Prop :=
  ∀ p, s.permissions = some p → 0 < p.card → "/" ∈ p

lemma applyTrace_append (s : UserContextType) (t1 t2 : List Action) :
    applyTrace s (t1 ++ t2) = applyTrace (applyTrace s t1) t2 :=
  List.foldl_append _ _ _ _

lemma runFetch_permOk (s : UserContextType) (r : Responses) :
    permOk (runFetch s r) := by
  rcases r with ⟨au, ur, pr⟩
  cases au with
  | error e => simp [permOk, runFetch, fetchTrace, applyTrace, applyAction]
  | ok authUser =>
    cases authUser with
    | none => simp [permOk, runFetch, fetchTrace, applyTrace, applyAction]
    | some u =>
      cases ur with
      | error e2 => simp [permOk, runFetch, fetchTrace, applyTrace, applyAction]
      | ok data =>
        by_cases hlen : (fetchedRolesOf data).length > 0
        · cases pr with
          | error e3 =>
              simp [permOk, runFetch, fetchTrace, applyTrace, applyAction, hlen]
          | ok pdata =>
              intro p hp hpos
              have hp2 : (if (fetchedPermissionsOf pdata).card > 0 then
                  insert "/" (fetchedPermissionsOf pdata)
                else fetchedPermissionsOf pdata) = p := by
                simpa [runFetch, fetchTrace, applyTrace, applyAction, hlen]
                  using hp
              by_cases hcard : (fetchedPermissionsOf pdata).card > 0
              · rw [if_pos hcard] at hp2
                subst hp2
                exact Finset.mem_insert_self _ _
              · rw [if_neg hcard] at hp2
                subst hp2
                exact absurd hpos hcard
        · simp [permOk, runFetch, fetchTrace, applyTrace, applyAction, hlen]

lemma runEvent_permOk (s : UserContextType) (e : Event) :
    permOk (runEvent s e) := by
  cases e with
  | fetch r => exact runFetch_permOk s r
  | authChange su r =>
    cases su with
    | none => simp [permOk, runEvent, eventTrace, applyTrace, applyAction]
    | some u => exact runFetch_permOk (applyAction s (Action.setUser (some u))) r

lemma foldl_runEvent_permOk : ∀ (es : List Event) (s : UserContextType),
    permOk s → permOk (es.foldl runEvent s)
  | [], _, hs => hs
  | e :: es, s, _ => foldl_runEvent_permOk es (runEvent s e) (runEvent_permOk s e)

/-- C3: in every state the provider reaches from mount through any
sequence of fetches and auth-change events, a non-empty permissions set
contains the root dashboard path, because every branch of the fetch
routine that stores a non-empty set first inserts the root path. -/
theorem reachable_root_permission (es : List Event) (p : Finset String)
    (hp : (runEvents es).permissions = some p) (hne : p.Nonempty) :
    "/" ∈ p :=
  foldl_runEvent_permOk es initialState
    (fun q hq => by simp [initialState] at hq) p hp (Finset.card_pos.mpr hne)

theorem reachable_root_permission_w :
    "/" ∈ insert "/" (List.toFinset ["/a"]) :=
  reachable_root_permission
    [Event.fetch
      { authUser := Except.ok (some { id := "u1" }),
        userRoles := Except.ok (some [{ roles := [{ id := 1, role_name := "admin" }] }]),
        permissions := Except.ok (some [{ resource_path := "/a" }]) }]
    (insert "/" (List.toFinset ["/a"])) rfl ⟨"/", by decide⟩

/-- C8: every run of the fetch routine begins by setting loading to true
and ends with loading false whether it succeeds or fails, and any
auth-change event — in particular a sign-out event with no session
user — also leaves loading false. -/
theorem loading_lifecycle (s : UserContextType) (r : Responses) :
    (fetchTrace r).head? = some (Action.setLoading true) ∧
    (runFetch s r).loading = false ∧
    (∀ su rc, (runEvent s (Event.authChange su rc)).loading = false) ∧
    (runEvent s (Event.fetch r)).loading = false := by
  have hrun : ∀ (s2 : UserContextType) (r2 : Responses),
      (runFetch s2 r2).loading = false := by
    intro s2 r2
    have : runFetch s2 r2 =
        applyTrace (applyTrace s2
          ([Action.setLoading true, Action.fetchAuthUser] ++
            (match r2.authUser with
              | Except.error _ =>
                  [Action.logError, Action.setRoles none, Action.setPermissions none]
              | Except.ok authUser =>
                  Action.setUser authUser ::
                  match authUser with
                  | none => [Action.setRoles none, Action.setPermissions none]
                  | some u =>
                      Action.queryUserRoles u.id ::
                      match r2.userRoles with
                      | Except.error _ =>
                          [Action.logError, Action.setRoles none,
                           Action.setPermissions none]
                      | Except.ok data =>
                          Action.setRoles (some (fetchedRolesOf data)) ::
                          if (fetchedRolesOf data).length > 0 then
                            Action.queryPermissions (roleIdsOf data) ::
                            match r2.permissions with
                            | Except.error _ =>
                                [Action.logError, Action.setRoles none,
                                 Action.setPermissions none]
                            | Except.ok pdata =>
                                [Action.setPermissions (some
                                  (if (fetchedPermissionsOf pdata).card > 0 then
                                    insert "/" (fetchedPermissionsOf pdata)
                                  else fetchedPermissionsOf pdata))]
                          else [Action.setPermissions (some (∅ : Finset String))])))
          [Action.setLoading false] := by
      rw [runFetch, fetchTrace, applyTrace_append]
    rw [this]
    simp [applyTrace, applyAction]
  refine ⟨rfl, hrun s r, ?_, hrun s r⟩
  intro su rc
  cases su with
  | none => simp [runEvent, eventTrace, applyTrace, applyAction]
  | some u => exact hrun (applyAction s (Action.setUser (some u))) rc

/-- C10: the `useUser` hook throws exactly when the context is undefined
(it is used outside a `UserProvider`); with a provider present it returns
the context value unchanged. -/
theorem useUser_throws_iff_outside (o : Option UserContextType) :
    ((∃ e, useUser o = Except.error e) ↔ o = none) ∧
    (∀ ctx, o = some ctx → useUser o = Except.ok ctx) := by
  cases o with
  | none =>
      refine ⟨⟨fun _ => rfl, fun _ => ?_⟩, ?_⟩
      · exact ⟨"useUser must be used within a UserProvider", rfl⟩
      · intro ctx h
        exact absurd h (by simp)
  | some c =>
      refine ⟨⟨?_, ?_⟩, ?_⟩
      · rintro ⟨e, he⟩
        simp [useUser] at he
      · intro h
        exact absurd h (by simp)
      · intro ctx h
        rw [Option.some_inj] at h
        subst h
        rfl

theorem useUser_throws_iff_outside_w :
    useUser (some initialState) = Except.ok initialState :=
  (useUser_throws_iff_outside (some initialState)).2 initialState rfl

/-- Sample responses: a signed-in user with one admin role and one
permitted path. -/
def adminResponses : Responses :=
  { authUser := Except.ok (some { id := "u1" }),
    userRoles := Except.ok (some [{ roles := [{ id := 1, role_name := "admin" }] }]),
    permissions := Except.ok (some [{ resource_path := "/a" }]) }

/-- Sample responses: no authenticated user. -/
def signedOutResponses : Responses :=
  { authUser := Except.ok none,
    userRoles := Except.ok none,
    permissions := Except.ok none }

/-- Sample responses: a signed-in user whose role query throws. -/
def roleFailResponses : Responses :=
  { authUser := Except.ok (some { id := "u1" }),
    userRoles := Except.error (),
    permissions := Except.ok none }

/-- Sample responses: a signed-in user whose role query returns no rows. -/
def emptyRoleResponses : Responses :=
  { authUser := Except.ok (some { id := "u1" }),
    userRoles := Except.ok (some []),
    permissions := Except.ok none }

/-- Sample responses: a signed-in user with one joined role row whose
`role_name` is the empty (falsy) string. -/
def blankNameResponses : Responses :=
  { authUser := Except.ok (some { id := "u1" }),
    userRoles := Except.ok (some [{ roles := [{ id := 1, role_name := "" }] }]),
    permissions := Except.ok (some []) }

/-- A sample provider state distinct from `initialState`, with stale data. -/
def altState : UserContextType :=
  { user := some { id := "prior" }, roles := some ["old"],
    permissions := some (∅ : Finset String), loading := true }

/-- C1 counterexample: with one role and a permission query returning the
single path `/a`, the stored permissions set is not exactly the set of
returned paths — the code also inserts the root path `/`. -/
theorem fetch_signedIn_permissions_cex :
    (runFetch initialState adminResponses).permissions ≠
      some (fetchedPermissionsOf (some [{ resource_path := "/a" }])) := by
  rw [show (runFetch initialState adminResponses).permissions =
      some (insert "/" (List.toFinset ["/a"])) from rfl]
  simp [fetchedPermissionsOf]

/-- C1 amended: for a signed-in user with a non-empty fetched role list,
the provider queries the joined role rows for that user's id, queries
permissions filtered by the role ids, and stores the set of returned
resource paths with the root path `/` additionally inserted whenever that
set is non-empty. -/
theorem fetch_signedIn_permissions (s : UserContextType) (r : Responses)
    (u : AuthUser) (data : Option (List SupabaseUserRoleJoinResultItem))
    (pdata : Option (List PermissionRow))
    (hau : r.authUser = Except.ok (some u))
    (hur : r.userRoles = Except.ok data)
    (hpr : r.permissions = Except.ok pdata)
    (hroles : fetchedRolesOf data ≠ []) :
    Action.queryUserRoles u.id ∈ fetchTrace r ∧
    Action.queryPermissions (roleIdsOf data) ∈ fetchTrace r ∧
    (runFetch s r).permissions = some
      (if (fetchedPermissionsOf pdata).card > 0 then
        insert "/" (fetchedPermissionsOf pdata)
      else fetchedPermissionsOf pdata) := by
  have hlen : (fetchedRolesOf data).length > 0 := List.length_pos.mpr hroles
  refine ⟨?_, ?_, ?_⟩ <;>
    simp [runFetch, fetchTrace, hau, hur, hpr, hlen, applyTrace, applyAction]

theorem fetch_signedIn_permissions_w :
    Action.queryUserRoles "u1" ∈ fetchTrace adminResponses ∧
    Action.queryPermissions [1] ∈ fetchTrace adminResponses ∧
    (runFetch initialState adminResponses).permissions = some
      (if (fetchedPermissionsOf (some [{ resource_path := "/a" }])).card > 0 then
        insert "/" (fetchedPermissionsOf (some [{ resource_path := "/a" }]))
      else fetchedPermissionsOf (some [{ resource_path := "/a" }])) :=
  fetch_signedIn_permissions initialState adminResponses { id := "u1" }
    (some [{ roles := [{ id := 1, role_name := "admin" }] }])
    (some [{ resource_path := "/a" }]) rfl rfl rfl (by decide)

/-- C2 counterexample: when the role query throws for a signed-in user,
the error is logged but the state is not fully cleared — the user
identity keeps the fetched user instead of being cleared. -/
theorem fetch_failure_clears_cex :
    Action.logError ∈ fetchTrace roleFailResponses ∧
    (runFetch initialState roleFailResponses).user ≠ none := by decide

/-- C2 amended: on any failure of the fetch chain the component logs the
error, clears the role list and the permission set, and loading ends
false; the user identity is not cleared — when the user fetch succeeded
it keeps the fetched user (also in the role-query and permission-query
failure cases), and when the user fetch itself failed it keeps its prior
value. -/
theorem fetch_failure_clears (s : UserContextType) (r : Responses)
    (hfail : Action.logError ∈ fetchTrace r) :
    (runFetch s r).roles = none ∧ (runFetch s r).permissions = none ∧
    (runFetch s r).loading = false ∧
    (∀ au, r.authUser = Except.ok au → (runFetch s r).user = au) ∧
    (∀ x, r.authUser = Except.error x → (runFetch s r).user = s.user) := by
  rcases hau : r.authUser with e | au
  · refine ⟨?_, ?_, ?_, ?_, ?_⟩ <;>
      simp [runFetch, fetchTrace, hau, applyTrace, applyAction]
  · cases au with
    | none => exfalso; simp [fetchTrace, hau] at hfail
    | some u =>
      rcases hur : r.userRoles with e2 | data
      · refine ⟨?_, ?_, ?_, ?_, ?_⟩ <;>
          simp [runFetch, fetchTrace, hau, hur, applyTrace, applyAction]
      · by_cases hlen : (fetchedRolesOf data).length > 0
        · rcases hpr : r.permissions with e3 | pdata
          · refine ⟨?_, ?_, ?_, ?_, ?_⟩ <;>
              simp [runFetch, fetchTrace, hau, hur, hpr, hlen, applyTrace,
                applyAction]
          · exfalso; simp [fetchTrace, hau, hur, hpr, hlen] at hfail
        · exfalso; simp [fetchTrace, hau, hur, hlen] at hfail

theorem fetch_failure_clears_w :
    (runFetch initialState roleFailResponses).roles = none ∧
    (runFetch initialState roleFailResponses).permissions = none ∧
    (runFetch initialState roleFailResponses).loading = false ∧
    (∀ au, roleFailResponses.authUser = Except.ok au →
      (runFetch initialState roleFailResponses).user = au) ∧
    (∀ x, roleFailResponses.authUser = Except.error x →
      (runFetch initialState roleFailResponses).user = initialState.user) :=
  fetch_failure_clears initialState roleFailResponses (by decide)

/-- C4 counterexample: a sign-out auth-change event (no session user)
does not re-fetch — no call to the auth user fetch appears in its
trace. -/
theorem authChange_refetch_cex :
    Action.fetchAuthUser ∉ eventTrace (Event.authChange none signedOutResponses) := by
  decide

/-- C4 amended: an auth-change event with a session user sets the user
and re-runs the whole fetch routine (so it re-fetches the current user,
roles, and permissions); an event with no session user does not re-fetch
and instead clears user, roles and permissions and sets loading false. -/
theorem authChange_refetch (s : UserContextType) (su : Option AuthUser)
    (r : Responses) :
    (∀ u, su = some u →
      eventTrace (Event.authChange su r) =
        Action.setUser (some u) :: fetchTrace r ∧
      Action.fetchAuthUser ∈ eventTrace (Event.authChange su r)) ∧
    (su = none →
      Action.fetchAuthUser ∉ eventTrace (Event.authChange su r) ∧
      (runEvent s (Event.authChange su r)).user = none ∧
      (runEvent s (Event.authChange su r)).roles = none ∧
      (runEvent s (Event.authChange su r)).permissions = none ∧
      (runEvent s (Event.authChange su r)).loading = false) := by
  constructor
  · intro u hsu
    subst hsu
    exact ⟨rfl, by simp [eventTrace, fetchTrace]⟩
  · intro hsu
    subst hsu
    refine ⟨?_, ?_, ?_, ?_, ?_⟩ <;>
      simp [eventTrace, runEvent, applyTrace, applyAction]

theorem authChange_refetch_w :
    Action.fetchAuthUser ∉ eventTrace (Event.authChange none roleFailResponses) ∧
    (runEvent initialState (Event.authChange none roleFailResponses)).user = none ∧
    (runEvent initialState (Event.authChange none roleFailResponses)).roles = none ∧
    (runEvent initialState (Event.authChange none roleFailResponses)).permissions = none ∧
    (runEvent initialState (Event.authChange none roleFailResponses)).loading = false :=
  (authChange_refetch initialState none roleFailResponses).2 rfl

/-- C5: a signed-in user whose role query returns no rows gets the empty
role list and the empty (non-null) permission set, with no permission
query issued; with no user signed in, roles and permissions are null
instead. -/
theorem signedIn_noRoles_empty (s : UserContextType) (r : Responses)
    (u : AuthUser)
    (hau : r.authUser = Except.ok (some u))
    (hur : r.userRoles = Except.ok (some [])) :
    (runFetch s r).roles = some [] ∧
    (runFetch s r).permissions = some (∅ : Finset String) ∧
    (∀ ids, Action.queryPermissions ids ∉ fetchTrace r) ∧
    (∀ r2 : Responses, r2.authUser = Except.ok none →
      (runFetch s r2).roles = none ∧ (runFetch s r2).permissions = none) := by
  have hlen : ¬ (fetchedRolesOf (some [])).length > 0 := by decide
  refine ⟨?_, ?_, ?_, ?_⟩
  · simp [runFetch, fetchTrace, fetchedRolesOf, hau, hur, hlen, applyTrace,
      applyAction]
  · simp [runFetch, fetchTrace, hau, hur, hlen, applyTrace, applyAction]
  · intro ids
    simp [fetchTrace, hau, hur, hlen]
  · intro r2 h2
    constructor <;> simp [runFetch, fetchTrace, h2, applyTrace, applyAction]

theorem signedIn_noRoles_empty_w :
    (runFetch initialState emptyRoleResponses).roles = some [] ∧
    (runFetch initialState emptyRoleResponses).permissions = some (∅ : Finset String) ∧
    (∀ ids, Action.queryPermissions ids ∉ fetchTrace emptyRoleResponses) ∧
    (∀ r2 : Responses, r2.authUser = Except.ok none →
      (runFetch initialState r2).roles = none ∧
      (runFetch initialState r2).permissions = none) :=
  signedIn_noRoles_empty initialState emptyRoleResponses { id := "u1" } rfl rfl

/-- C6: when the auth API reports no authenticated user, roles and
permissions are set to null and neither the role query nor the permission
query is issued. -/
theorem signedOut_null_state (s : UserContextType) (r : Responses)
    (hau : r.authUser = Except.ok none) :
    (runFetch s r).roles = none ∧ (runFetch s r).permissions = none ∧
    (∀ uid, Action.queryUserRoles uid ∉ fetchTrace r) ∧
    (∀ ids, Action.queryPermissions ids ∉ fetchTrace r) := by
  refine ⟨?_, ?_, ?_, ?_⟩ <;>
    simp [runFetch, fetchTrace, hau, applyTrace, applyAction]

theorem signedOut_null_state_w :
    (runFetch initialState signedOutResponses).roles = none ∧
    (runFetch initialState signedOutResponses).permissions = none ∧
    (∀ uid, Action.queryUserRoles uid ∉ fetchTrace signedOutResponses) ∧
    (∀ ids, Action.queryPermissions ids ∉ fetchTrace signedOutResponses) :=
  signedOut_null_state initialState signedOutResponses rfl

/-- C7 counterexample: a joined role row whose `role_name` is the empty
string contributes no entry — the exposed roles list is empty rather
than containing one entry per joined row. -/
theorem roles_names_cex :
    (runFetch initialState blankNameResponses).roles ≠ some [""] := by decide

/-- C7 amended: for a signed-in user whose queries succeed, the role
query is issued for that user's id and the exposed roles value is the
`role_name` of each joined role row in order, except that falsy (empty)
names are filtered out. -/
theorem roles_names (s : UserContextType) (r : Responses) (u : AuthUser)
    (data : Option (List SupabaseUserRoleJoinResultItem))
    (hau : r.authUser = Except.ok (some u))
    (hur : r.userRoles = Except.ok data)
    (hok : ∃ pdata, r.permissions = Except.ok pdata) :
    Action.queryUserRoles u.id ∈ fetchTrace r ∧
    (runFetch s r).roles = some (fetchedRolesOf data) := by
  by_cases hlen : (fetchedRolesOf data).length > 0
  · obtain ⟨pdata, hpr⟩ := hok
    constructor <;>
      simp [runFetch, fetchTrace, hau, hur, hpr, hlen, applyTrace, applyAction]
  · constructor <;>
      simp [runFetch, fetchTrace, hau, hur, hlen, applyTrace, applyAction]

theorem roles_names_w :
    Action.queryUserRoles "u1" ∈ fetchTrace adminResponses ∧
    (runFetch initialState adminResponses).roles = some ["admin"] :=
  roles_names initialState adminResponses { id := "u1" }
    (some [{ roles := [{ id := 1, role_name := "admin" }] }]) rfl rfl
    ⟨some [{ resource_path := "/a" }], rfl⟩

/-- C9: the state derivation is deterministic and independent of the
prior provider state — two runs of the fetch routine from any two prior
states, consuming the same responses (with the auth API answering),
produce the same user, roles, and permissions. -/
theorem fetch_deterministic (s1 s2 : UserContextType) (r : Responses)
    (au : Option AuthUser) (hau : r.authUser = Except.ok au) :
    (runFetch s1 r).user = (runFetch s2 r).user ∧
    (runFetch s1 r).roles = (runFetch s2 r).roles ∧
    (runFetch s1 r).permissions = (runFetch s2 r).permissions := by
  refine ⟨?_, ?_, ?_⟩ <;>
  · cases au with
    | none => simp [runFetch, fetchTrace, hau, applyTrace, applyAction]
    | some u =>
      rcases hur : r.userRoles with e2 | data
      · simp [runFetch, fetchTrace, hau, hur, applyTrace, applyAction]
      · by_cases hlen : (fetchedRolesOf data).length > 0
        · rcases hpr : r.permissions with e3 | pdata <;>
            simp [runFetch, fetchTrace, hau, hur, hpr, hlen, applyTrace,
              applyAction]
        · simp [runFetch, fetchTrace, hau, hur, hlen, applyTrace, applyAction]

theorem fetch_deterministic_w :
    (runFetch initialState adminResponses).user =
      (runFetch altState adminResponses).user ∧
    (runFetch initialState adminResponses).roles =
      (runFetch altState adminResponses).roles ∧
    (runFetch initialState adminResponses).permissions =
      (runFetch altState adminResponses).permissions :=
  fetch_deterministic initialState altState adminResponses
    (some { id := "u1" }) rfl

end UserContext
